import Mathlib

/-!
Verification of the ai-sysadmin core against its specification.

Each Python function referenced by a claim is shallowly embedded as an
executable Lean definition that mirrors the source control flow.  Machine
integers are modelled as Nat/Int, Python floats arising from Jaccard
similarity as exact rationals, and effectful calls (subprocess, databases)
as explicit oracle parameters or state passing.
-/

namespace AiSysadmin

/-! ## Executor (src/executor.py, class SafeExecutor) -/

/-- Mirrors `SafeExecutor.SAFE_ACTIONS`: the action types considered safe to
auto-execute. -/
def SAFE_ACTIONS : List String := ["systemd_restart", "cleanup", "investigation"]

/-- Mirrors `SafeExecutor.PROTECTED_SERVICES`: units that must never be
stopped or disabled. -/
def PROTECTED_SERVICES : List String :=
  ["sshd", "systemd-networkd", "NetworkManager", "systemd-resolved", "dbus"]

/-- Mirrors `SafeExecutor._should_execute`: whether the action is
auto-executed, with the reason string. -/
def shouldExecute (autonomyLevel actionType riskLevel : String) : Bool × String :=
  if autonomyLevel = "observe" then
    (false, "Autonomy level set to observe-only")
  else if actionType = "investigation" ∧ riskLevel = "low" then
    (true, "Auto-approved: Low-risk information gathering")
  else if autonomyLevel = "suggest" then
    (false, "Autonomy level requires manual approval")
  else if autonomyLevel = "auto-safe" then
    if actionType ∈ SAFE_ACTIONS ∧ riskLevel = "low" then
      (true, "Auto-executing safe action")
    else
      (false, "Action requires higher autonomy level")
  else if autonomyLevel = "auto-full" then
    if riskLevel = "high" then
      (false, "High risk actions always require approval")
    else
      (true, "Auto-executing approved action")
  else
    (false, "Unknown autonomy level")

/-- A proposal as consumed by `SafeExecutor.execute_action`.  Optional fields
model `dict.get` defaults (`action_type` defaults to unknown, `risk_level`
to high); `diagnosis` and `proposed_action` default to the empty string. -/
structure Proposal where
  action_type : Option String
  risk_level : Option String
  commands : List String
  diagnosis : String
  proposed_action : String
deriving DecidableEq, Repr

/-- The four return shapes of `SafeExecutor.execute_action`: queued for
approval (suggest level), blocked, dry-run simulation, or dispatched to
`_execute_action_impl`. -/
inductive Outcome where
  | queuedForApproval
  | blocked
  | dryRunResult
  | dispatched
deriving DecidableEq, Repr

/-- Mirrors the gating prefix of `SafeExecutor.execute_action`: reads the
action fields with their defaults, consults `_should_execute`, and decides
between queueing (only at suggest level), blocking, dry run, and actual
dispatch. -/
def executeAction (autonomyLevel : String) (dryRun : Bool) (p : Proposal) : Outcome :=
  let actionType := p.action_type.getD "unknown"
  let riskLevel := p.risk_level.getD "high"
  if (shouldExecute autonomyLevel actionType riskLevel).1 = false then
    if autonomyLevel = "suggest" then Outcome.queuedForApproval else Outcome.blocked
  else if dryRun then Outcome.dryRunResult
  else Outcome.dispatched

/-- Convenience constructor: a proposal with explicit action type and risk
level and no commands. -/
def mkProposal (t r : String) : Proposal :=
  { action_type := some t, risk_level := some r, commands := [],
    diagnosis := "", proposed_action := "" }

/-- For every autonomy level and action type, a high-risk proposal is never
auto-executed by `_should_execute`. -/
theorem shouldExecute_high_false (autonomyLevel actionType : String) :
    (shouldExecute autonomyLevel actionType "high").1 = false := by
  unfold shouldExecute
  by_cases h1 : autonomyLevel = "observe" <;> simp [h1]
  by_cases h2 : autonomyLevel = "suggest" <;> simp [h2]
  by_cases h3 : autonomyLevel = "auto-safe" <;> simp [h3]
  by_cases h4 : autonomyLevel = "auto-full" <;> simp [h4]

/-- Claim C1: for every proposal whose risk level is high and every autonomy
level, `execute_action` never runs the action: the outcome is either queued
for approval or blocked (the dry-run and dispatch branches are unreachable). -/
theorem high_risk_never_auto_executed (autonomyLevel : String) (dryRun : Bool)
    (p : Proposal) (h : p.risk_level = some "high") :
    executeAction autonomyLevel dryRun p = Outcome.queuedForApproval ∨
    executeAction autonomyLevel dryRun p = Outcome.blocked := by
  unfold executeAction
  rw [h]
  simp only [Option.getD_some, shouldExecute_high_false]
  by_cases hs : autonomyLevel = "suggest" <;> simp [hs]

/-- Witness for C1 at a concrete input: a high-risk cleanup proposal at
auto-full autonomy is not executed. -/
theorem high_risk_never_auto_executed_witness :
    (mkProposal "cleanup" "high").risk_level = some "high" ∧
    (executeAction "auto-full" false (mkProposal "cleanup" "high") = Outcome.queuedForApproval ∨
     executeAction "auto-full" false (mkProposal "cleanup" "high") = Outcome.blocked) :=
  ⟨by decide, high_risk_never_auto_executed "auto-full" false _ (by decide)⟩

/-- Counterexample to Claim C3: at auto-safe autonomy a low-risk
`nix_rebuild` proposal is neither auto-executed (the table row says auto for
every other low action) nor queued (the claim says non-executed actions are
queued): it is blocked. -/
theorem autonomy_table_counterexample :
    executeAction "auto-safe" false (mkProposal "nix_rebuild" "low") ≠ Outcome.dispatched ∧
    executeAction "auto-safe" false (mkProposal "nix_rebuild" "low") ≠ Outcome.queuedForApproval := by
  decide

/-- Claim C3 (amended): the actual autonomy ladder of `_should_execute`
combined with `execute_action`: observe blocks everything; suggest
auto-executes only low-risk investigation and queues the rest; auto-safe
auto-executes low-risk actions of a whitelisted type (systemd_restart,
cleanup, investigation) and blocks, not queues, everything else; auto-full
auto-executes everything except high risk, which it blocks, not queues. -/
theorem autonomy_ladder_characterization (t r : String) :
    executeAction "observe" false (mkProposal t r) = Outcome.blocked ∧
    executeAction "suggest" false (mkProposal t r) =
      (if t = "investigation" ∧ r = "low" then Outcome.dispatched
       else Outcome.queuedForApproval) ∧
    executeAction "auto-safe" false (mkProposal t r) =
      (if t ∈ SAFE_ACTIONS ∧ r = "low" then Outcome.dispatched
       else Outcome.blocked) ∧
    executeAction "auto-full" false (mkProposal t r) =
      (if r = "high" then Outcome.blocked else Outcome.dispatched) := by
  refine ⟨?_, ?_, ?_, ?_⟩
  · simp [executeAction, shouldExecute, mkProposal]
  · by_cases h : t = "investigation" ∧ r = "low" <;>
      simp [executeAction, shouldExecute, mkProposal, h]
  · by_cases hr : r = "low"
    · by_cases hmem : t ∈ SAFE_ACTIONS
      · by_cases h3 : t = "investigation"
        · simp [executeAction, shouldExecute, mkProposal, SAFE_ACTIONS, hr, hmem, h3]
        · have hst : t = "systemd_restart" ∨ t = "cleanup" := by
            simp [SAFE_ACTIONS] at hmem
            rcases hmem with h | h | h
            · exact Or.inl h
            · exact Or.inr h
            · exact absurd h h3
          simp [executeAction, shouldExecute, mkProposal, SAFE_ACTIONS, hr, hmem, h3, hst]
      · have h3 : ¬ t = "investigation" := fun he => hmem (by rw [he]; decide)
        simp [executeAction, shouldExecute, mkProposal, hr, hmem, h3]
    · have h3 : ¬ (t = "investigation" ∧ r = "low") := fun hc => hr hc.2
      simp [executeAction, shouldExecute, mkProposal, hr, h3]
  · by_cases h : t = "investigation" ∧ r = "low"
    · have hr : ¬ r = "high" := by rw [h.2]; decide
      simp [executeAction, shouldExecute, mkProposal, h, hr]
    · by_cases h2 : r = "high" <;>
        simp [executeAction, shouldExecute, mkProposal, h, h2]

/-! ## Restart handler (src/executor.py, SafeExecutor._restart_services) -/

/-- Result of one `subprocess.run` call to systemctl: return code zero,
nonzero with stderr, or TimeoutExpired. -/
inductive SysResult where
  | ok
  | fail (stderr : String)
  | timeout
deriving DecidableEq, Repr

/-- Helper for `splitWords`: walks the characters accumulating the current
word reversed. -/
def splitWordsAux : List Char → List Char → List String
  | [], acc => if acc.isEmpty then [] else [String.mk acc.reverse]
  | c :: cs, acc =>
    if c.isWhitespace then
      if acc.isEmpty then splitWordsAux cs []
      else String.mk acc.reverse :: splitWordsAux cs []
    else splitWordsAux cs (c :: acc)

/-- Python `str.split()` with no argument: split on whitespace runs,
dropping empty tokens. -/
def splitWords (s : String) : List String := splitWordsAux s.toList []

/-- `cmd.split()[-1]`: the last whitespace-separated token. -/
def lastToken (cmd : String) : String := (splitWords cmd).getLastD ""

/-- Python `str.startswith`, modelled on the character lists. -/
def pyStartsWith (s pre : String) : Bool := pre.toList.isPrefixOf s.toList

/-- Python substring containment `needle in hay`. -/
def containsSub (needle hay : String) : Bool :=
  (List.range (hay.toList.length + 1)).any fun i =>
    needle.toList.isPrefixOf (hay.toList.drop i)

/-- The guard `any(protected in service for protected in self.PROTECTED_SERVICES)`
of `_restart_services`. -/
def isProtected (service : String) : Bool :=
  PROTECTED_SERVICES.any fun p => containsSub p service

/-- Mirrors `SafeExecutor._restart_services`, parametrised by the systemctl
oracle `run`.  Returns the list of services actually handed to systemctl
together with the accumulated output lines, both in iteration order.  The
autonomy level plays no role here: the handler is only reached after the
autonomy gate, and its own blocking is unconditional. -/
def restartServices (run : String → SysResult) : List String → List String × List String
  | [] => ([], [])
  | cmd :: rest =>
    if pyStartsWith cmd "systemctl restart " then
      let service := lastToken cmd
      let tailRes := restartServices run rest
      if isProtected service then
        (tailRes.1, ("BLOCKED: " ++ service ++ " is protected") :: tailRes.2)
      else
        match run service with
        | SysResult.ok =>
            (service :: tailRes.1, ("✓ Restarted " ++ service) :: tailRes.2)
        | SysResult.fail err =>
            (service :: tailRes.1,
             ("✗ Failed to restart " ++ service ++ ": " ++ err) :: tailRes.2)
        | SysResult.timeout =>
            (service :: tailRes.1, ("✗ Timeout restarting " ++ service) :: tailRes.2)
    else restartServices run rest

/-- Every service the restart handler hands to systemctl passed the
protected-name check. -/
theorem restartServices_invoked_unprotected (run : String → SysResult)
    (cmds : List String) (s : String)
    (h : s ∈ (restartServices run cmds).1) : isProtected s = false := by
  induction cmds with
  | nil => simp [restartServices] at h
  | cons cmd rest ih =>
    simp only [restartServices] at h
    by_cases h1 : pyStartsWith cmd "systemctl restart " = true
    · rw [if_pos h1] at h
      by_cases h2 : isProtected (lastToken cmd) = true
      · rw [if_pos h2] at h
        exact ih h
      · rw [if_neg h2] at h
        rcases hres : run (lastToken cmd) with _ | err <;>
          rw [hres] at h <;>
          simp only [List.mem_cons] at h <;>
          rcases h with rfl | hm <;>
          first
            | exact Bool.eq_false_iff.mpr h2
            | exact ih hm
    · rw [if_neg h1] at h
      exact ih h

/-- A command that starts with the restart prefix and whose last token trips
the protected check contributes its BLOCKED line to the handler output. -/
theorem restartServices_blocked_mem (run : String → SysResult)
    (cmds : List String) (cmd : String) (hmem : cmd ∈ cmds)
    (h1 : pyStartsWith cmd "systemctl restart " = true)
    (h2 : isProtected (lastToken cmd) = true) :
    ("BLOCKED: " ++ lastToken cmd ++ " is protected") ∈ (restartServices run cmds).2 := by
  induction cmds with
  | nil => simp at hmem
  | cons c rest ih =>
    simp only [restartServices]
    rcases List.mem_cons.mp hmem with rfl | hm
    · rw [if_pos h1, if_pos h2]
      exact List.mem_cons_self _ _
    · by_cases hc1 : pyStartsWith c "systemctl restart " = true
      · rw [if_pos hc1]
        by_cases hc2 : isProtected (lastToken c) = true
        · rw [if_pos hc2]
          exact List.mem_cons_of_mem _ (ih hm)
        · rw [if_neg hc2]
          rcases hres : run (lastToken c) with _ | err <;>
            exact List.mem_cons_of_mem _ (ih hm)
      · rw [if_neg hc1]
        exact ih hm

/-- Claim C4: for every protected unit U and every command list containing
the command restarting U, the handler records the BLOCKED output line for U
and never hands U to systemctl, whatever the systemctl oracle does and
independent of any autonomy level. -/
theorem protected_service_restart_blocked (run : String → SysResult)
    (commands : List String) (U : String) (hU : U ∈ PROTECTED_SERVICES)
    (hc : ("systemctl restart " ++ U) ∈ commands) :
    ("BLOCKED: " ++ U ++ " is protected") ∈ (restartServices run commands).2 ∧
    U ∉ (restartServices run commands).1 := by
  have hlast : lastToken ("systemctl restart " ++ U) = U := by
    fin_cases hU <;> decide
  have hprot : isProtected U = true := by
    fin_cases hU <;> decide
  have hstart : pyStartsWith ("systemctl restart " ++ U) "systemctl restart " = true := by
    unfold pyStartsWith
    rw [List.isPrefixOf_iff_prefix,
      show ("systemctl restart " ++ U).toList
          = ("systemctl restart ").toList ++ U.toList by simp [String.toList]]
    exact List.prefix_append _ _
  constructor
  · have hb := restartServices_blocked_mem run commands _ hc hstart
      (by rw [hlast]; exact hprot)
    rwa [hlast] at hb
  · intro hin
    have hfalse := restartServices_invoked_unprotected run commands U hin
    rw [hprot] at hfalse
    simp at hfalse

/-- Witness for C4 at a concrete input: restarting sshd is blocked and sshd
is never handed to systemctl. -/
theorem protected_service_restart_blocked_witness :
    "sshd" ∈ PROTECTED_SERVICES ∧
    ("systemctl restart " ++ "sshd") ∈ ["systemctl restart sshd"] ∧
    (("BLOCKED: " ++ "sshd" ++ " is protected") ∈
        (restartServices (fun _ => SysResult.ok) ["systemctl restart sshd"]).2 ∧
      "sshd" ∉ (restartServices (fun _ => SysResult.ok) ["systemctl restart sshd"]).1) :=
  ⟨by decide, by decide,
   protected_service_restart_blocked (fun _ => SysResult.ok) _ "sshd" (by decide) (by decide)⟩

/-- Claim C10 (implicit): the protected check is substring containment, not
name equality: any restart command whose unit merely contains a protected
name as a substring is blocked with a BLOCKED line and never handed to
systemctl.  The token hypothesis says the unit is a single word, so that it
is what `cmd.split()[-1]` recovers. -/
theorem protected_substring_restart_blocked (run : String → SysResult)
    (commands : List String) (unitName : String)
    (hsub : ∃ p ∈ PROTECTED_SERVICES, containsSub p unitName = true)
    (htok : lastToken ("systemctl restart " ++ unitName) = unitName)
    (hc : ("systemctl restart " ++ unitName) ∈ commands) :
    ("BLOCKED: " ++ unitName ++ " is protected") ∈ (restartServices run commands).2 ∧
    unitName ∉ (restartServices run commands).1 := by
  have hprot : isProtected unitName = true := by
    rcases hsub with ⟨p, hp, hps⟩
    exact List.any_eq_true.mpr ⟨p, hp, hps⟩
  have hstart : pyStartsWith ("systemctl restart " ++ unitName) "systemctl restart " = true := by
    unfold pyStartsWith
    rw [List.isPrefixOf_iff_prefix,
      show ("systemctl restart " ++ unitName).toList
          = ("systemctl restart ").toList ++ unitName.toList by simp [String.toList]]
    exact List.prefix_append _ _
  constructor
  · have hb := restartServices_blocked_mem run commands _ hc hstart
      (by rw [htok]; exact hprot)
    rwa [htok] at hb
  · intro hin
    have hfalse := restartServices_invoked_unprotected run commands unitName hin
    rw [hprot] at hfalse
    simp at hfalse

/-- Witness for C10 at a concrete input: the unit dbus-broker is not itself
in the protected set, yet restarting it is blocked because dbus occurs in it
as a substring. -/
theorem protected_substring_restart_blocked_witness :
    containsSub "dbus" "dbus-broker" = true ∧
    "dbus-broker" ∉ PROTECTED_SERVICES ∧
    (("BLOCKED: " ++ "dbus-broker" ++ " is protected") ∈
        (restartServices (fun _ => SysResult.ok) ["systemctl restart dbus-broker"]).2 ∧
      "dbus-broker" ∉
        (restartServices (fun _ => SysResult.ok) ["systemctl restart dbus-broker"]).1) :=
  ⟨by decide, by decide,
   protected_substring_restart_blocked (fun _ => SysResult.ok) _ "dbus-broker"
     ⟨"dbus", by decide, by decide⟩ (by decide) (by decide)⟩

/-! ## Approval queue (src/executor.py, _queue_for_approval / _similarity_check) -/

/-- The stop words removed before the Jaccard comparison in
`_similarity_check`. -/
def COMMON_WORDS : List String :=
  ["the", "a", "an", "and", "or", "but", "in", "on", "at", "to", "for",
   "of", "with", "by", "is", "are", "was", "were", "be", "been", "have",
   "has", "had"]

/-- Python `str.lower()`, modelled per character (the source strings are
ASCII). -/
def pyLower (s : String) : String := String.mk (s.toList.map Char.toLower)

/-- Python `str.strip()`: drop leading and trailing whitespace. -/
def pyStrip (s : String) : String :=
  String.mk (((s.toList.dropWhile Char.isWhitespace).reverse.dropWhile
    Char.isWhitespace).reverse)

/-- Python `set(s.split())`, as a duplicate-free list. -/
def wordSet (s : String) : List String := (splitWords s).dedup

/-- Set subtraction on duplicate-free lists (Python set difference). -/
def setDiff (a b : List String) : List String := a.filter fun w => !(b.contains w)

/-- Mirrors `SafeExecutor._similarity_check`: exact match after lowercasing
and stripping scores 1; empty stop-word-filtered word sets score 0; otherwise
the Jaccard ratio of the filtered word sets.  The Python float division is
modelled as an exact rational. -/
def similarityCheck (str1 str2 : String) : ℚ :=
  let s1 := pyStrip (pyLower str1)
  let s2 := pyStrip (pyLower str2)
  if s1 = s2 then 1
  else
    let words1 := setDiff (wordSet s1) COMMON_WORDS
    let words2 := setDiff (wordSet s2) COMMON_WORDS
    if words1 = [] ∨ words2 = [] then 0
    else
      let inter := (words1.filter fun w => words2.contains w).length
      let union := words1.length + (words2.filter fun w => !(words1.contains w)).length
      if 0 < union then (inter : ℚ) / (union : ℚ) else 0

/-- One entry of the on-disk approval queue: timestamp, action, monitoring
context and the decision (`approved = none` meaning pending). -/
structure QueueEntry where
  timestamp : String
  action : Proposal
  context : String
  approved : Option Bool
deriving DecidableEq, Repr

/-- The duplicate scan of `_queue_for_approval`: walk the queue in order,
skip decided entries, and report a hit when the candidate diagnosis or
proposed action is similar (above 0.7) to the corresponding field of a
pending entry; Python truthiness skips the comparison when either side is
the empty string. -/
def queueDedupHit (diagnosis proposedAction : String) : List QueueEntry → Bool
  | [] => false
  | e :: rest =>
    if e.approved ≠ none then queueDedupHit diagnosis proposedAction rest
    else if diagnosis ≠ "" ∧ e.action.diagnosis ≠ "" ∧
        similarityCheck diagnosis e.action.diagnosis > 7/10 then true
    else if proposedAction ≠ "" ∧ e.action.proposed_action ≠ "" ∧
        similarityCheck proposedAction e.action.proposed_action > 7/10 then true
    else queueDedupHit diagnosis proposedAction rest

/-- Mirrors `SafeExecutor._queue_for_approval`: return the queue unchanged on
a duplicate hit, otherwise append a fresh pending entry. -/
def queueForApproval (now : String) (queue : List QueueEntry) (action : Proposal)
    (context : String) : List QueueEntry :=
  if queueDedupHit action.diagnosis action.proposed_action queue then queue
  else queue ++
    [{ timestamp := now, action := action, context := context, approved := none }]

/-- If some pending entry of the queue matches the candidate on one of the
two guarded similarity tests, the duplicate scan reports a hit. -/
theorem queueDedupHit_of_mem (d pa : String) :
    ∀ (queue : List QueueEntry) (e : QueueEntry), e ∈ queue → e.approved = none →
      ((d ≠ "" ∧ e.action.diagnosis ≠ "" ∧
          similarityCheck d e.action.diagnosis > 7/10) ∨
        (pa ≠ "" ∧ e.action.proposed_action ≠ "" ∧
          similarityCheck pa e.action.proposed_action > 7/10)) →
      queueDedupHit d pa queue = true := by
  intro queue
  induction queue with
  | nil => intro e he; simp at he
  | cons c rest ih =>
    intro e he hpend hcase
    rcases List.mem_cons.mp he with rfl | hm
    · simp only [queueDedupHit]
      rw [if_neg (by simp [hpend])]
      rcases hcase with hd | hp
      · rw [if_pos hd]
      · by_cases hd2 : d ≠ "" ∧ e.action.diagnosis ≠ "" ∧
            similarityCheck d e.action.diagnosis > 7/10
        · rw [if_pos hd2]
        · rw [if_neg hd2, if_pos hp]
    · simp only [queueDedupHit]
      by_cases h1 : c.approved ≠ none
      · rw [if_pos h1]
        exact ih e hm hpend hcase
      · rw [if_neg h1]
        by_cases h2 : d ≠ "" ∧ c.action.diagnosis ≠ "" ∧
            similarityCheck d c.action.diagnosis > 7/10
        · rw [if_pos h2]
        · rw [if_neg h2]
          by_cases h3 : pa ≠ "" ∧ c.action.proposed_action ≠ "" ∧
              similarityCheck pa c.action.proposed_action > 7/10
          · rw [if_pos h3]
          · rw [if_neg h3]
            exact ih e hm hpend hcase

/-- Claim C5 (amended): suppression holds for non-empty fields: if some
pending entry has a non-empty diagnosis with similarity above 0.7 to the
candidate's non-empty diagnosis, or likewise for the proposed action,
enqueuing leaves the queue unchanged.  When either side of a comparison is
the empty string the test is skipped (Python truthiness), so fully empty
duplicates accumulate — see the counterexample. -/
theorem approval_dedup_suppresses (now : String) (queue : List QueueEntry)
    (p : Proposal) (context : String)
    (h : ∃ e ∈ queue, e.approved = none ∧
      ((p.diagnosis ≠ "" ∧ e.action.diagnosis ≠ "" ∧
          similarityCheck p.diagnosis e.action.diagnosis > 7/10) ∨
        (p.proposed_action ≠ "" ∧ e.action.proposed_action ≠ "" ∧
          similarityCheck p.proposed_action e.action.proposed_action > 7/10))) :
    queueForApproval now queue p context = queue := by
  rcases h with ⟨e, he, hpend, hcase⟩
  have hhit := queueDedupHit_of_mem p.diagnosis p.proposed_action queue e he hpend hcase
  simp [queueForApproval, hhit]

/-- The proposal used in the C5 counterexample: both dedup-relevant fields
empty, as for an action whose dict lacks the diagnosis and proposed_action
keys. -/
def blankProposal : Proposal :=
  { action_type := some "cleanup", risk_level := some "medium", commands := [],
    diagnosis := "", proposed_action := "" }

/-- Counterexample to Claim C5: the empty diagnosis has similarity 1 with
itself (exact-match branch), strictly above 0.7, yet enqueuing the same
blank proposal twice yields two pending entries instead of leaving the queue
unchanged: the guards skip empty fields. -/
theorem approval_dedup_counterexample :
    similarityCheck "" "" = 1 ∧ ((7:ℚ)/10 < 1) ∧
    (queueForApproval "t1" [] blankProposal "ctx").length = 1 ∧
    (queueForApproval "t2" (queueForApproval "t1" [] blankProposal "ctx")
        blankProposal "ctx").length = 2 := by
  refine ⟨by decide, by norm_num, by decide, by decide⟩

/-- The pending queue entry used in the C5 witness. -/
def pendingDiskEntry : QueueEntry :=
  { timestamp := "t0",
    action := { action_type := some "cleanup", risk_level := some "low",
                commands := [], diagnosis := "disk usage critically high",
                proposed_action := "run cleanup" },
    context := "ctx", approved := none }

/-- The candidate proposal used in the C5 witness: same diagnosis as the
pending entry. -/
def duplicateDiskProposal : Proposal :=
  { action_type := some "cleanup", risk_level := some "low", commands := [],
    diagnosis := "disk usage critically high", proposed_action := "free space" }

/-- Witness for the amended C5 at a concrete input: a candidate whose
non-empty diagnosis exactly matches a pending entry is suppressed. -/
theorem approval_dedup_suppresses_witness :
    similarityCheck "disk usage critically high" "disk usage critically high" > 7/10 ∧
    queueForApproval "t1" [pendingDiskEntry] duplicateDiskProposal "ctx" =
      [pendingDiskEntry] := by
  have hsim : similarityCheck "disk usage critically high"
      "disk usage critically high" = 1 := by decide
  have hgt : similarityCheck "disk usage critically high"
      "disk usage critically high" > 7/10 := by rw [hsim]; norm_num
  exact ⟨hgt,
    approval_dedup_suppresses "t1" [pendingDiskEntry] duplicateDiskProposal "ctx"
      ⟨pendingDiskEntry, by decide, rfl, Or.inl ⟨by decide, by decide, hgt⟩⟩⟩

/-! ## Context manager (src/context_manager.py, ContextManager) -/

/-- One context buffer entry: admission timestamp (seconds), source, the
serialised event payload, the compressed flag and the current token count. -/
structure CtxEntry where
  timestamp : Nat
  source : String
  event : String
  compressed : Bool
  token_count : Nat
deriving DecidableEq, Repr

/-- The bookkeeping of `ContextManager.compression_stats`. -/
structure CompressionStats where
  total_compressions : Nat
  tokens_saved : Int
  entries_compressed : Nat
deriving DecidableEq, Repr

/-- The mutable state of `ContextManager`: the entry deque, the running
token count (a Python int, so an integer), and the compression statistics. -/
structure CtxState where
  entries : List CtxEntry
  current_token_count : Int
  stats : CompressionStats
deriving DecidableEq, Repr

/-- The `deque(maxlen=10000)` capacity of the context buffer. -/
def CTX_MAXLEN : Nat := 10000

/-- Sum of the entry token counts, as an integer. -/
def sumTokens (entries : List CtxEntry) : Int :=
  (entries.map fun e => (e.token_count : Int)).sum

/-- The fresh state of a `ContextManager` with no checkpoint on disk. -/
def emptyCtxState : CtxState :=
  { entries := [], current_token_count := 0,
    stats := { total_compressions := 0, tokens_saved := 0, entries_compressed := 0 } }

/-- The selection-and-compression loop of `_compress_old_entries`: walk the
entries oldest first with the amount `r` of tokens still to free; skip
entries already compressed or younger than 600 seconds; otherwise replace
the event by its rule-based summary (`summarize` models
`_create_entry_summary`), set the compressed flag, re-measure with `recount`
(which models `count_tokens(json.dumps(entry))`), and stop selecting once
the original token counts of the selected entries reach the goal.  Returns
the rewritten list, the total saved token delta (an integer, since a summary
may measure larger than its original), and the number of entries
compressed. -/
def compressGo (now : Nat) (summarize : String → String) (recount : CtxEntry → Nat) :
    List CtxEntry → Int → List CtxEntry × Int × Nat
  | [], _ => ([], 0, 0)
  | e :: rest, r =>
    if r ≤ 0 then (e :: rest, 0, 0)
    else if e.compressed then
      let res := compressGo now summarize recount rest r
      (e :: res.1, res.2.1, res.2.2)
    else if now - e.timestamp < 600 then
      let res := compressGo now summarize recount rest r
      (e :: res.1, res.2.1, res.2.2)
    else
      let e1 : CtxEntry := { e with event := summarize e.event, compressed := true }
      let newTokens := recount e1
      let e2 : CtxEntry := { e1 with token_count := newTokens }
      let saved : Int := (e.token_count : Int) - (newTokens : Int)
      let res := compressGo now summarize recount rest (r - (e.token_count : Int))
      (e2 :: res.1, res.2.1 + saved, res.2.2 + 1)

/-- Mirrors `ContextManager._compress_old_entries`: no-op when the current
count is already at or below the target, otherwise compress eligible old
entries and reconcile the running count and the statistics. -/
def compressOldEntries (now : Nat) (target : Int) (summarize : String → String)
    (recount : CtxEntry → Nat) (st : CtxState) : CtxState :=
  let tokensToFree := st.current_token_count - target
  if tokensToFree ≤ 0 then st
  else
    let res := compressGo now summarize recount st.entries tokensToFree
    { entries := res.1,
      current_token_count := st.current_token_count - res.2.1,
      stats := { total_compressions := st.stats.total_compressions + 1,
                 tokens_saved := st.stats.tokens_saved + res.2.1,
                 entries_compressed := st.stats.entries_compressed + res.2.2 } }

/-- Mirrors `ContextManager.add_event`: build the entry with its measured
cost (`cost` models `count_tokens(json.dumps(entry))`), compress toward half
the budget when the addition would exceed it, then append unconditionally —
the deque silently drops its oldest entry beyond capacity — and grow the
running count by the cost. -/
def addEvent (now : Nat) (source eventText : String) (cost : Nat)
    (contextSize : Nat) (summarize : String → String) (recount : CtxEntry → Nat)
    (st : CtxState) : CtxState :=
  let st1 :=
    if st.current_token_count + (cost : Int) > (contextSize : Int) then
      compressOldEntries now ((contextSize : Int) / 2) summarize recount st
    else st
  let entry : CtxEntry :=
    { timestamp := now, source := source, event := eventText,
      compressed := false, token_count := cost }
  let es := st1.entries ++ [entry]
  { entries := es.drop (es.length - CTX_MAXLEN),
    current_token_count := st1.current_token_count + (cost : Int),
    stats := st1.stats }

/-- The compression loop accounts exactly for the tokens it saves. -/
theorem compressGo_sum (now : Nat) (summarize : String → String)
    (recount : CtxEntry → Nat) :
    ∀ (l : List CtxEntry) (r : Int),
      sumTokens (compressGo now summarize recount l r).1
        = sumTokens l - (compressGo now summarize recount l r).2.1 := by
  intro l
  induction l with
  | nil => intro r; simp [compressGo, sumTokens]
  | cons e rest ih =>
    intro r
    simp only [compressGo]
    by_cases h1 : r ≤ 0
    · rw [if_pos h1]; simp [sumTokens]
    · rw [if_neg h1]
      by_cases h2 : e.compressed = true
      · rw [if_pos h2]
        simp only [sumTokens, List.map_cons, List.sum_cons] at *
        rw [ih r]; ring
      · rw [if_neg h2]
        by_cases h3 : now - e.timestamp < 600
        · rw [if_pos h3]
          simp only [sumTokens, List.map_cons, List.sum_cons] at *
          rw [ih r]; ring
        · rw [if_neg h3]
          simp only [sumTokens, List.map_cons, List.sum_cons] at *
          rw [ih (r - (e.token_count : Int))]; ring

/-- The compression loop never adds or deletes entries. -/
theorem compressGo_length (now : Nat) (summarize : String → String)
    (recount : CtxEntry → Nat) :
    ∀ (l : List CtxEntry) (r : Int),
      (compressGo now summarize recount l r).1.length = l.length := by
  intro l
  induction l with
  | nil => intro r; simp [compressGo]
  | cons e rest ih =>
    intro r
    simp only [compressGo]
    by_cases h1 : r ≤ 0
    · rw [if_pos h1]
    · rw [if_neg h1]
      by_cases h2 : e.compressed = true
      · rw [if_pos h2]; simp [ih r]
      · rw [if_neg h2]
        by_cases h3 : now - e.timestamp < 600
        · rw [if_pos h3]; simp [ih r]
        · rw [if_neg h3]; simp [ih (r - (e.token_count : Int))]

/-- A compression pass preserves the token-sum invariant and the number of
entries. -/
theorem compressOldEntries_inv (now : Nat) (target : Int)
    (summarize : String → String) (recount : CtxEntry → Nat) (st : CtxState)
    (hinv : sumTokens st.entries = st.current_token_count) :
    sumTokens (compressOldEntries now target summarize recount st).entries
        = (compressOldEntries now target summarize recount st).current_token_count ∧
      (compressOldEntries now target summarize recount st).entries.length
        = st.entries.length := by
  unfold compressOldEntries
  by_cases h : st.current_token_count - target ≤ 0
  · rw [if_pos h]; exact ⟨hinv, rfl⟩
  · rw [if_neg h]
    refine ⟨?_, compressGo_length now summarize recount st.entries _⟩
    simp only []
    rw [compressGo_sum, hinv]

/-- Claim C2 (amended): the token-sum side of the invariant does hold: after
a compression pass, and after `add_event` whenever the buffer is below its
10000-entry deque capacity, the sum of the entry token counts equals the
running count.  The budget side of the original claim fails: the event is
admitted unconditionally after a best-effort compression toward half the
budget, no oldest-entry dropping is implemented, and the running count can
exceed the configured context size — see the counterexample. -/
theorem context_token_conservation (now : Nat) (source eventText : String)
    (cost contextSize : Nat) (target : Int) (summarize : String → String)
    (recount : CtxEntry → Nat) (st : CtxState)
    (hinv : sumTokens st.entries = st.current_token_count)
    (hlen : st.entries.length < CTX_MAXLEN) :
    sumTokens (compressOldEntries now target summarize recount st).entries
        = (compressOldEntries now target summarize recount st).current_token_count ∧
      sumTokens (addEvent now source eventText cost contextSize summarize recount st).entries
        = (addEvent now source eventText cost contextSize summarize recount st).current_token_count := by
  refine ⟨(compressOldEntries_inv now target summarize recount st hinv).1, ?_⟩
  unfold addEvent
  by_cases hov : st.current_token_count + (cost : Int) > (contextSize : Int)
  · rw [if_pos hov]
    obtain ⟨hinv1, hlen1⟩ := compressOldEntries_inv now ((contextSize : Int) / 2)
      summarize recount st hinv
    have hlen2 : (compressOldEntries now ((contextSize : Int) / 2) summarize
        recount st).entries.length + 1 ≤ CTX_MAXLEN := by
      rw [hlen1]; omega
    simp only [List.length_append, List.length_cons, List.length_nil]
    rw [Nat.sub_eq_zero_of_le (by simpa using hlen2), List.drop_zero]
    simp [sumTokens, hinv1]
    exact hinv1
  · rw [if_neg hov]
    have hlen2 : st.entries.length + 1 ≤ CTX_MAXLEN := by omega
    simp only [List.length_append, List.length_cons, List.length_nil]
    rw [Nat.sub_eq_zero_of_le (by simpa using hlen2), List.drop_zero]
    simp [sumTokens, hinv]
    exact hinv

/-- Witness for the amended C2 at a concrete input: the empty buffer
satisfies the invariant, and it is preserved by a compression pass and by
one admission. -/
theorem context_token_conservation_witness :
    (sumTokens emptyCtxState.entries = emptyCtxState.current_token_count ∧
      emptyCtxState.entries.length < CTX_MAXLEN) ∧
    (sumTokens (compressOldEntries 700 2 id (fun e => e.token_count)
          emptyCtxState).entries
        = (compressOldEntries 700 2 id (fun e => e.token_count)
          emptyCtxState).current_token_count ∧
      sumTokens (addEvent 700 "trigger" "ev" 3 100 id (fun e => e.token_count)
          emptyCtxState).entries
        = (addEvent 700 "trigger" "ev" 3 100 id (fun e => e.token_count)
          emptyCtxState).current_token_count) :=
  ⟨⟨by decide, by decide⟩,
   context_token_conservation 700 "trigger" "ev" 3 100 2 id
     (fun e => e.token_count) emptyCtxState (by decide) (by decide)⟩

/-- Counterexample to Claim C2: with a configured context size of 4 tokens
and an incoming event measuring 10 tokens, the empty buffer has nothing to
compress or drop, yet the event is admitted and the running token count ends
at 10, strictly above the budget. -/
theorem context_budget_counterexample :
    (addEvent 0 "trigger" "ev" 10 4 id (fun e => e.token_count)
        emptyCtxState).current_token_count = 10 ∧
    ¬ ((addEvent 0 "trigger" "ev" 10 4 id (fun e => e.token_count)
        emptyCtxState).current_token_count ≤ (4 : Int)) := by
  decide

/-! ## Issue tracker (src/issue_tracker.py, IssueTracker, over the
issue store of src/context_db.py) -/

/-- An issue record as created by `IssueTracker.create_issue`.
Investigations and actions carry the timestamp stamped on append. -/
structure Issue where
  issue_id : String
  hostname : String
  title : String
  description : String
  status : String
  severity : String
  created_at : String
  updated_at : String
  source : String
  investigations : List (String × String)
  actions : List (String × String)
  resolution : Option String
  closed_at : Option String
deriving DecidableEq, Repr

/-- The tracker state: the live store keyed by issue id (ChromaDB
collection) and the append-only closed-issues archive file. -/
structure TrackerState where
  live : List (String × Issue)
  archive : List Issue
deriving DecidableEq, Repr

/-- A tracker with no issues. -/
def emptyTracker : TrackerState := { live := [], archive := [] }

/-- `ContextDatabase.get_issue`: fetch by id from the live store. -/
def getIssue (st : TrackerState) (issue_id : String) : Option Issue :=
  (st.live.find? fun p => p.1 == issue_id).map fun p => p.2

/-- `ContextDatabase.update_issue`: delete the old version, store the new
one. -/
def updateIssueDb (st : TrackerState) (issue : Issue) : TrackerState :=
  { st with live := (st.live.filter fun p => !(p.1 == issue.issue_id))
      ++ [(issue.issue_id, issue)] }

/-- `IssueTracker.create_issue`, with the fresh uuid and the wall clock
passed explicitly; the new issue starts open. -/
def createIssue (issue_id now hostname title description severity source : String)
    (st : TrackerState) : TrackerState :=
  { st with live := st.live ++ [(issue_id,
      { issue_id := issue_id, hostname := hostname, title := title,
        description := description, status := "open", severity := severity,
        created_at := now, updated_at := now, source := source,
        investigations := [], actions := [], resolution := none,
        closed_at := none })] }

/-- `IssueTracker.update_issue`: the requested status is applied with no
transition validation (an empty string is falsy in Python and leaves the
status alone); investigations and actions are time-stamped and appended;
updated_at is bumped and the issue stored back. -/
def updateIssue (now issue_id : String) (status : Option String)
    (investigation action : Option String) (st : TrackerState) :
    Bool × TrackerState :=
  match getIssue st issue_id with
  | none => (false, st)
  | some issue =>
    let issue1 := { issue with
      status := match status with
        | some s => if s = "" then issue.status else s
        | none => issue.status,
      investigations := match investigation with
        | some i => issue.investigations ++ [(i, now)]
        | none => issue.investigations,
      actions := match action with
        | some a => issue.actions ++ [(a, now)]
        | none => issue.actions,
      updated_at := now }
    (true, updateIssueDb st issue1)

/-- `IssueTracker.resolve_issue`: set status to resolved and record the
resolution note, from any current status. -/
def resolveIssue (now issue_id resolution : String) (st : TrackerState) :
    Bool × TrackerState :=
  match getIssue st issue_id with
  | none => (false, st)
  | some issue =>
    (true, updateIssueDb st
      { issue with
          status := "resolved", resolution := some resolution,
          updated_at := now })

/-- `IssueTracker.close_issue`: only resolved issues close; the closed
version is stamped, archived, and deleted from the live store. -/
def closeIssue (now issue_id : String) (st : TrackerState) : Bool × TrackerState :=
  match getIssue st issue_id with
  | none => (false, st)
  | some issue =>
    if issue.status ≠ "resolved" then (false, st)
    else
      let closed := { issue with status := "closed", closed_at := some now }
      (true, { live := st.live.filter fun p => !(p.1 == issue_id),
               archive := st.archive ++ [closed] })

/-- Deleting an id from the live store makes it unreachable via `get_issue`. -/
theorem getIssue_after_delete (live : List (String × Issue))
    (archive : List Issue) (issue_id : String) :
    getIssue { live := live.filter fun p => !(p.1 == issue_id),
               archive := archive } issue_id = none := by
  unfold getIssue
  have hnone : (live.filter fun p => !(p.1 == issue_id)).find?
      (fun p => p.1 == issue_id) = none := by
    rw [List.find?_eq_none]
    intro x hx
    have hmem := List.mem_filter.mp hx
    simp at hmem ⊢
    exact hmem.2
  rw [hnone]
  rfl

/-- The tracker state after creating issue i1 and resolving it.  Used by the
C6 counterexample. -/
def trackerAfterResolve : TrackerState :=
  (resolveIssue "t1" "i1" "restarted"
    (createIssue "i1" "t0" "macha" "nginx not running" "nginx is down"
      "medium" "auto-detected" emptyTracker)).2

/-- The same tracker after `update_issue` pushes the status back to open. -/
def trackerAfterReopen : TrackerState :=
  (updateIssue "t2" "i1" (some "open") none none trackerAfterResolve).2

/-- Counterexample to Claim C6: `update_issue` performs no transition
validation, so a resolved issue is pushed straight back to open; the
observed status sequence open, resolved, open is not a subsequence of the
lifecycle and in particular resolved to open does occur. -/
theorem issue_lifecycle_counterexample :
    (getIssue trackerAfterResolve "i1").map (fun i => i.status) = some "resolved" ∧
    (getIssue trackerAfterReopen "i1").map (fun i => i.status) = some "open" := by
  decide

/-- Claim C6 (amended): the closure half of the claim does hold: close_issue
succeeds only from resolved, stamps closed_at, appends the closed record to
the archive, and removes the issue from the live store so get_issue no
longer returns it.  The monotonicity half fails because update_issue applies
any requested status unchecked — see the counterexample. -/
theorem close_issue_terminal (now issue_id : String) (st : TrackerState) :
    (getIssue st issue_id = none → closeIssue now issue_id st = (false, st)) ∧
    (∀ issue, getIssue st issue_id = some issue → issue.status ≠ "resolved" →
        closeIssue now issue_id st = (false, st)) ∧
    (∀ issue, getIssue st issue_id = some issue → issue.status = "resolved" →
        (closeIssue now issue_id st).1 = true ∧
        getIssue (closeIssue now issue_id st).2 issue_id = none ∧
        (closeIssue now issue_id st).2.archive
          = st.archive
            ++ [{ issue with
                    status := "closed", closed_at := some now }]) := by
  refine ⟨?_, ?_, ?_⟩
  · intro h
    simp [closeIssue, h]
  · intro issue h hne
    simp [closeIssue, h, hne]
  · intro issue h hres
    refine ⟨by simp [closeIssue, h, hres], ?_, by simp [closeIssue, h, hres]⟩
    have hstep : (closeIssue now issue_id st).2
        = { live := st.live.filter fun p => !(p.1 == issue_id),
            archive := st.archive
              ++ [{ issue with
                      status := "closed", closed_at := some now }] } := by
      simp [closeIssue, h, hres]
    rw [hstep]
    exact getIssue_after_delete st.live _ issue_id

/-- The resolved issue living in `trackerAfterResolve`, spelled out. -/
def resolvedIssueVal : Issue :=
  { issue_id := "i1", hostname := "macha", title := "nginx not running",
    description := "nginx is down", status := "resolved", severity := "medium",
    created_at := "t0", updated_at := "t1", source := "auto-detected",
    investigations := [], actions := [], resolution := some "restarted",
    closed_at := none }

/-- Witness for the amended C6 at a concrete input: closing the resolved
issue i1 succeeds, archives the closed record, and evicts it from the live
store. -/
theorem close_issue_terminal_witness :
    getIssue trackerAfterResolve "i1" = some resolvedIssueVal ∧
    resolvedIssueVal.status = "resolved" ∧
    ((closeIssue "t3" "i1" trackerAfterResolve).1 = true ∧
      getIssue (closeIssue "t3" "i1" trackerAfterResolve).2 "i1" = none ∧
      (closeIssue "t3" "i1" trackerAfterResolve).2.archive
        = trackerAfterResolve.archive
          ++ [{ resolvedIssueVal with
                  status := "closed", closed_at := some "t3" }]) :=
  ⟨by decide, by decide,
   (close_issue_terminal "t3" "i1" trackerAfterResolve).2.2 resolvedIssueVal
     (by decide) (by decide)⟩

/-! ## Review layer (src/review_model.py, ReviewModel) -/

/-- A safe-action candidate from the review JSON (`safe_actions` items);
optional fields model missing dict keys. -/
structure RAction where
  action_type : Option String
  description : Option String
  target : Option String
  risk : Option String
deriving DecidableEq, Repr

/-- The whitelist of `ReviewModel._is_safe_action`. -/
def safeActionTypes : List String := ["investigation", "restart_service", "cleanup"]

/-- Mirrors `ReviewModel._is_safe_action`: the risk (defaulting to high)
must be low and the action type (defaulting to the empty string) must be
whitelisted. -/
def isSafeAction (a : RAction) : Bool :=
  let actionType := a.action_type.getD ""
  let risk := a.risk.getD "high"
  if risk ≠ "low" then false
  else decide (actionType ∈ safeActionTypes)

/-- Mirrors `ReviewModel._generate_commands`. -/
def generateCommands (a : RAction) : List String :=
  let target := a.target.getD ""
  match a.action_type with
  | some "restart_service" => ["systemctl restart " ++ target]
  | some "investigation" =>
      ["systemctl status " ++ target, "journalctl -u " ++ target ++ " -n 50"]
  | some "cleanup" =>
      ["journalctl --vacuum-time=7d", "nix-collect-garbage --delete-old"]
  | _ => []

/-- The executor-action dict built by `ReviewModel._execute_safe_action`:
the review action type is passed through, risk_level hard-coded to low,
commands generated, and no diagnosis key. -/
def toExecutorAction (a : RAction) : Proposal :=
  { action_type := a.action_type,
    risk_level := some "low",
    commands := generateCommands a,
    diagnosis := "",
    proposed_action := a.description.getD "" }

/-- The per-action body of the safe-action loop in
`ReviewModel.review_system_state`: actions passing `_is_safe_action` are
handed to `SafeExecutor.execute_action` — and hence still subject to the
autonomy gate — while all others are discarded at the review layer and
never reach the executor (`none`). -/
def reviewProcessAction (autonomyLevel : String) (dryRun : Bool) (a : RAction) :
    Option Outcome :=
  if isSafeAction a then
    some (executeAction autonomyLevel dryRun (toExecutorAction a))
  else none

/-- The review filter passes exactly the low-risk whitelisted actions. -/
theorem isSafeAction_iff (a : RAction) :
    isSafeAction a = true ↔
      (a.risk.getD "high" = "low" ∧ a.action_type.getD "" ∈ safeActionTypes) := by
  unfold isSafeAction
  by_cases h : a.risk.getD "high" = "low" <;> simp [h]

/-- What the executor sees for a forwarded review action: the review action
type, at hard-coded low risk. -/
theorem toExecutorAction_fields (a : RAction)
    (h : a.action_type.getD "" ∈ safeActionTypes) :
    (toExecutorAction a).action_type.getD "unknown" = a.action_type.getD "" ∧
    (toExecutorAction a).risk_level.getD "high" = "low" := by
  constructor
  · rcases hat : a.action_type with _ | t
    · exfalso
      rw [hat] at h
      simp [safeActionTypes] at h
    · simp [toExecutorAction, hat]
  · rfl

/-- The executor dispatches (outside dry-run mode) exactly when
`_should_execute` says yes. -/
theorem executeAction_dispatched_iff (autonomyLevel : String) (p : Proposal) :
    executeAction autonomyLevel false p = Outcome.dispatched
      ↔ (shouldExecute autonomyLevel (p.action_type.getD "unknown")
          (p.risk_level.getD "high")).1 = true := by
  unfold executeAction
  rcases hb : (shouldExecute autonomyLevel (p.action_type.getD "unknown")
      (p.risk_level.getD "high")).1
  · simp only [hb]
    by_cases hsug : autonomyLevel = "suggest" <;> simp [hsug]
  · simp only [hb]
    simp

/-- Claim C7 (amended): an action proposed by the review layer is forwarded
to the executor iff its risk is low and its type is whitelisted
(investigation, restart_service, cleanup); anything else is discarded and
never reaches the executor.  A forwarded action is however not executed
directly: it passes through the executor autonomy gate, and is dispatched
iff `_should_execute` approves it.  In particular restart_service is not in
the executor SAFE_ACTIONS set (which lists systemd_restart instead), so a
forwarded low-risk restart_service is queued at suggest and blocked at
auto-safe — see the counterexample — while forwarded low-risk investigation
and cleanup do dispatch at auto-safe (and investigation at every
non-observe level). -/
theorem review_safe_action_gate (autonomyLevel : String) (a : RAction) :
    ((reviewProcessAction autonomyLevel false a).isSome
        ↔ (a.risk.getD "high" = "low" ∧ a.action_type.getD "" ∈ safeActionTypes)) ∧
    (reviewProcessAction autonomyLevel false a = some Outcome.dispatched
        ↔ (a.risk.getD "high" = "low" ∧ a.action_type.getD "" ∈ safeActionTypes ∧
            (shouldExecute autonomyLevel (a.action_type.getD "") "low").1 = true)) := by
  constructor
  · rw [← isSafeAction_iff]
    unfold reviewProcessAction
    by_cases hs : isSafeAction a = true <;> simp [hs]
  · unfold reviewProcessAction
    by_cases hs : isSafeAction a = true
    · rw [if_pos hs]
      have hiff := (isSafeAction_iff a).mp hs
      obtain ⟨hf1, hf2⟩ := toExecutorAction_fields a hiff.2
      constructor
      · intro h
        have hd := Option.some.inj h
        have hgate := (executeAction_dispatched_iff autonomyLevel
          (toExecutorAction a)).mp hd
        rw [hf1, hf2] at hgate
        exact ⟨hiff.1, hiff.2, hgate⟩
      · rintro ⟨-, -, hgate⟩
        have hd := (executeAction_dispatched_iff autonomyLevel
          (toExecutorAction a)).mpr (by rw [hf1, hf2]; exact hgate)
        rw [hd]
    · rw [if_neg hs]
      constructor
      · intro h
        simp at h
      · rintro ⟨h1, h2, -⟩
        exact absurd ((isSafeAction_iff a).mpr ⟨h1, h2⟩) hs

/-- The low-risk service-restart action used in the C7 counterexample. -/
def lowRestartAction : RAction :=
  { action_type := some "restart_service", description := some "restart nginx",
    target := some "nginx", risk := some "low" }

/-- Counterexample to Claim C7: a low-risk restart_service action passes the
review safe filter, yet it is not executed directly: at suggest autonomy the
executor queues it for approval, and at auto-safe it is blocked outright
(restart_service is not in the executor SAFE_ACTIONS whitelist). -/
theorem review_direct_execution_counterexample :
    isSafeAction lowRestartAction = true ∧
    reviewProcessAction "suggest" false lowRestartAction
      = some Outcome.queuedForApproval ∧
    reviewProcessAction "auto-safe" false lowRestartAction
      = some Outcome.blocked := by
  decide

/-! ## Trigger monitor (src/trigger_monitor.py, TriggerMonitor) -/

/-- One entry of `TriggerMonitor.CRITICAL_PATTERNS`: the regex source text,
its literal pieces (each source regex is a literal, or two literals joined
by a dot-star), the severity and the description. -/
structure LogPattern where
  src : String
  pieces : List String
  severity : String
  description : String
deriving DecidableEq, Repr

/-- `TriggerMonitor.CRITICAL_PATTERNS`, in source order. -/
def CRITICAL_PATTERNS : List LogPattern :=
  [ { src := "kernel:.*panic", pieces := ["kernel:", "panic"],
      severity := "critical", description := "Kernel panic detected" },
    { src := "Out of memory", pieces := ["Out of memory"],
      severity := "critical", description := "OOM condition detected" },
    { src := "segfault", pieces := ["segfault"],
      severity := "high", description := "Segmentation fault detected" },
    { src := "Failed to start", pieces := ["Failed to start"],
      severity := "high", description := "Service failed to start" },
    { src := "FAILED", pieces := ["FAILED"],
      severity := "medium", description := "Service failure" },
    { src := "error.*authentication", pieces := ["error", "authentication"],
      severity := "medium", description := "Authentication error" },
    { src := "Connection refused", pieces := ["Connection refused"],
      severity := "low", description := "Connection refused" },
    { src := "timeout", pieces := ["timeout"],
      severity := "low", description := "Timeout detected" } ]

/-- No newline in `hay` between positions i (inclusive) and j (exclusive):
the regex dot does not match newlines. -/
def noNewlineBetween (hay : List Char) (i j : Nat) : Bool :=
  ((hay.drop i).take (j - i)).all fun c => c ≠ Char.ofNat 10

/-- The remaining pieces occur in order at or after position `pos`, with no
newline inside the gaps that the dot-star spans. -/
def piecesFrom (hay : List Char) : List (List Char) → Nat → Bool
  | [], _ => true
  | p :: ps, pos =>
    (List.range (hay.length + 1)).any fun j =>
      decide (pos ≤ j) && noNewlineBetween hay pos j &&
        p.isPrefixOf (hay.drop j) && piecesFrom hay ps (j + p.length)

/-- `re.search(pattern, message, re.IGNORECASE)` for the literal-pieces
patterns above: both sides lowercased; the first piece may start anywhere
and later pieces follow with newline-free gaps. -/
def regexSearchCI (pieces : List String) (message : String) : Bool :=
  let hay := (pyLower message).toList
  match pieces.map fun s => (pyLower s).toList with
  | [] => true
  | p :: ps =>
    (List.range (hay.length + 1)).any fun i =>
      p.isPrefixOf (hay.drop i) && piecesFrom hay ps (i + p.length)

/-- `TriggerMonitor._should_trigger`: per-key debounce over the
last-trigger-times map, modelled as an association list whose newest binding
comes first. -/
def shouldTrigger (now : Nat) (debounceSeconds : Nat) (triggerKey : String)
    (times : List (String × Nat)) : Bool × List (String × Nat) :=
  match times.lookup triggerKey with
  | none => (true, (triggerKey, now) :: times)
  | some last =>
    if now - last ≥ debounceSeconds then (true, (triggerKey, now) :: times)
    else (false, times)

/-- A `log_pattern` trigger event (the fields the claim is about). -/
structure TriggerEvent where
  severity : String
  pattern : String
  description : String
  message : String
deriving DecidableEq, Repr

/-- The event dict built for a matched pattern: severity and description
from the pattern and the message truncated to 200 characters. -/
def mkLogPatternEvent (p : LogPattern) (message : String) : TriggerEvent :=
  { severity := p.severity, pattern := p.src, description := p.description,
    message := String.mk (message.toList.take 200) }

/-- The debounce key built in the loop: the pattern text truncated to 20
characters with the prefix. -/
def patternKey (p : LogPattern) : String :=
  "pattern_" ++ String.mk (p.src.toList.take 20)

/-- The inner pattern loop of `_check_journal_logs` for a single journal
record: every pattern of the ordered list is tried — the loop has no break —
and each match consults the 60-second per-pattern debounce before appending
an event.  Returns the events emitted for this record, in pattern order,
and the updated debounce state.  (The AI classification attachment and the
stats counters are orthogonal to the claim and omitted.) -/
def checkRecordGo (now : Nat) (message : String) :
    List LogPattern → List (String × Nat) → List TriggerEvent × List (String × Nat)
  | [], times => ([], times)
  | p :: ps, times =>
    if regexSearchCI p.pieces message then
      let st := shouldTrigger now 60 (patternKey p) times
      let rest := checkRecordGo now message ps st.2
      (if st.1 then mkLogPatternEvent p message :: rest.1 else rest.1, rest.2)
    else checkRecordGo now message ps times

/-- The pattern scan of one journal record against the production pattern
list. -/
def checkRecordPatterns (now : Nat) (times : List (String × Nat))
    (message : String) : List TriggerEvent × List (String × Nat) :=
  checkRecordGo now message CRITICAL_PATTERNS times

/-- On a debounce state that knows none of the pattern keys (all keys
distinct), the scan emits exactly one event per matching pattern, in list
order. -/
theorem checkRecordGo_fresh (now : Nat) (message : String) :
    ∀ (pats : List LogPattern) (ts : List (String × Nat)),
      (pats.map patternKey).Nodup →
      (∀ p ∈ pats, ts.lookup (patternKey p) = none) →
      (checkRecordGo now message pats ts).1
        = (pats.filter fun p => regexSearchCI p.pieces message).map
            fun p => mkLogPatternEvent p message := by
  intro pats
  induction pats with
  | nil => intro ts _ _; simp [checkRecordGo]
  | cons p ps ih =>
    intro ts hnd hf
    rw [List.map_cons] at hnd
    have hnd' := List.nodup_cons.mp hnd
    simp only [checkRecordGo]
    by_cases hm : regexSearchCI p.pieces message = true
    · rw [if_pos hm]
      have hlook : ts.lookup (patternKey p) = none := hf p (List.mem_cons_self p ps)
      have hst : shouldTrigger now 60 (patternKey p) ts
          = (true, (patternKey p, now) :: ts) := by
        simp [shouldTrigger, hlook]
      have hf2 : ∀ q ∈ ps, ((patternKey p, now) :: ts).lookup (patternKey q) = none := by
        intro q hq
        have hne : (patternKey q == patternKey p) = false := by
          refine beq_eq_false_iff_ne.mpr fun he => hnd'.1 ?_
          rw [← he]
          exact List.mem_map_of_mem patternKey hq
        rw [show ((patternKey p, now) :: ts).lookup (patternKey q)
            = ts.lookup (patternKey q) from by simp [List.lookup, hne]]
        exact hf q (List.mem_cons_of_mem _ hq)
      simp only [hst, List.filter_cons, hm, if_true, List.map_cons]
      rw [ih ((patternKey p, now) :: ts) hnd'.2 hf2]
    · rw [if_neg hm]
      have hf2 : ∀ q ∈ ps, ts.lookup (patternKey q) = none :=
        fun q hq => hf q (List.mem_cons_of_mem _ hq)
      rw [ih ts hnd'.2 hf2]
      simp [List.filter_cons, hm]

/-- Claim C8 (amended): journal pattern matching is not first-match-wins:
for a record whose message matches several patterns, each matching pattern
of the ordered list emits its own `log_pattern` event (subject only to its
per-pattern 60-second debounce).  On a fresh debounce state the emitted
events are exactly one per matching pattern, in list order. -/
theorem journal_all_matching_patterns_fire (now : Nat)
    (times : List (String × Nat)) (message : String)
    (hfresh : ∀ p ∈ CRITICAL_PATTERNS, times.lookup (patternKey p) = none) :
    (checkRecordPatterns now times message).1
      = (CRITICAL_PATTERNS.filter fun p => regexSearchCI p.pieces message).map
          fun p => mkLogPatternEvent p message :=
  checkRecordGo_fresh now message CRITICAL_PATTERNS times (by decide) hfresh

/-- Witness for the amended C8 at a concrete input. -/
theorem journal_all_matching_patterns_fire_witness :
    (∀ p ∈ CRITICAL_PATTERNS,
        ([] : List (String × Nat)).lookup (patternKey p) = none) ∧
    (checkRecordPatterns 5 [] "Out of memory: killed process nginx").1
      = (CRITICAL_PATTERNS.filter
            fun p => regexSearchCI p.pieces "Out of memory: killed process nginx").map
          fun p => mkLogPatternEvent p "Out of memory: killed process nginx" :=
  ⟨by decide,
   journal_all_matching_patterns_fire 5 [] "Out of memory: killed process nginx"
     (by decide)⟩

/-- Counterexample to Claim C8: one journal record whose message matches
three patterns (Failed to start, FAILED case-insensitively, timeout) emits
three `log_pattern` events, not at most one for the first match. -/
theorem journal_first_match_counterexample :
    ((checkRecordPatterns 0 [] "Failed to start nginx: timeout").1.map
        fun e => e.description)
      = ["Service failed to start", "Service failure", "Timeout detected"] ∧
    2 ≤ (checkRecordPatterns 0 [] "Failed to start nginx: timeout").1.length := by
  decide

/-! ## Meta layer history pruning (src/meta_model.py, MetaModel._prune_messages) -/

/-- One chat message of the tool-calling loop history. -/
structure Msg where
  role : String
  content : String
deriving DecidableEq, Repr

/-- `MetaModel._estimate_tokens`: roughly four characters per token, floor
division. -/
def estimateTokens (text : String) : Nat := text.length / 4

/-- Mirrors `MetaModel._prune_messages`: walk the history keeping the last
message with the system role as the system message and everything else as
the conversation; estimate the total; if within the budget rebuild the list
as system message followed by the whole conversation, else keep only the
last 20 conversation messages.  Note the rebuild always puts the system
message first, whatever its input position, and drops all but the last
system message. -/
def pruneMessages (maxContextTokens : Nat) (messages : List Msg) : List Msg :=
  if messages.isEmpty then messages
  else
    let systemMsg := (messages.filter fun m => m.role == "system").getLast?
    let conversation := messages.filter fun m => !(m.role == "system")
    let sysTokens := match systemMsg with
      | some m => estimateTokens m.content
      | none => 0
    let total := sysTokens + (conversation.map fun m => estimateTokens m.content).sum
    if total ≤ maxContextTokens then systemMsg.toList ++ conversation
    else systemMsg.toList ++ conversation.drop (conversation.length - 20)

/-- Claim C9 (amended): for a history in the operational shape — a single
system message at the head — pruning is as specified: under the estimated
token budget the list is returned verbatim, otherwise the result is the
system message followed by the last 20 non-system messages in their
original order.  For other shapes the output is reordered (the last system
message is moved to the front), so verbatim fails — see the
counterexample. -/
theorem prune_messages_spec (budget : Nat) (sys : Msg) (rest : List Msg)
    (hsys : sys.role = "system") (hrest : ∀ m ∈ rest, m.role ≠ "system") :
    pruneMessages budget (sys :: rest)
      = (if estimateTokens sys.content
            + (rest.map fun m => estimateTokens m.content).sum ≤ budget
         then sys :: rest
         else sys :: rest.drop (rest.length - 20)) := by
  have hrestnil : rest.filter (fun m => m.role == "system") = [] := by
    rw [List.filter_eq_nil_iff]
    intro m hm
    simp [hrest m hm]
  have hrestself : rest.filter (fun m => !(m.role == "system")) = rest := by
    rw [List.filter_eq_self]
    intro m hm
    simp [hrest m hm]
  have hfilter1 : (sys :: rest).filter (fun m => m.role == "system") = [sys] := by
    rw [List.filter_cons, hrestnil]
    simp [hsys]
  have hfilter2 : (sys :: rest).filter (fun m => !(m.role == "system")) = rest := by
    rw [List.filter_cons, hrestself]
    simp [hsys]
  simp only [pruneMessages]
  rw [if_neg (by simp)]
  rw [hfilter1, hfilter2]
  simp only [List.getLast?_singleton, Option.toList_some, List.singleton_append]

/-- Witness for the amended C9 at a concrete input: a two-message history
with the system message first is under budget and returned verbatim. -/
theorem prune_messages_spec_witness :
    (Msg.mk "system" "stay safe").role = "system" ∧
    (∀ m ∈ [Msg.mk "user" "hello"], m.role ≠ "system") ∧
    pruneMessages 80000 [Msg.mk "system" "stay safe", Msg.mk "user" "hello"]
      = (if estimateTokens (Msg.mk "system" "stay safe").content
            + ([Msg.mk "user" "hello"].map fun m => estimateTokens m.content).sum
            ≤ 80000
         then Msg.mk "system" "stay safe" :: [Msg.mk "user" "hello"]
         else Msg.mk "system" "stay safe"
            :: [Msg.mk "user" "hello"].drop ([Msg.mk "user" "hello"].length - 20)) :=
  ⟨rfl, by decide,
   prune_messages_spec 80000 (Msg.mk "system" "stay safe") [Msg.mk "user" "hello"]
     rfl (by decide)⟩

/-- Counterexample to Claim C9: a history whose system message is not first
is well under the budget yet is not returned verbatim: the system message is
moved to the front. -/
theorem prune_messages_counterexample :
    estimateTokens "sys" + estimateTokens "hello" ≤ 80000 ∧
    pruneMessages 80000 [Msg.mk "user" "hello", Msg.mk "system" "sys"]
      = [Msg.mk "system" "sys", Msg.mk "user" "hello"] ∧
    pruneMessages 80000 [Msg.mk "user" "hello", Msg.mk "system" "sys"]
      ≠ [Msg.mk "user" "hello", Msg.mk "system" "sys"] := by
  decide

end AiSysadmin
